import Mathlib

/-!
Shallow embedding of the legalai translation pipeline
(`app/services/extractor.py`, `app/services/translator.py`,
`app/services/supabase_client.py`, `app/routes/translate.py`)
and proofs about the specified properties.

Machine-level effects are made explicit:
* network responses of the translation provider become an
  `attempt ↦ ApiResponse` function, and `translate_text`'s observable
  behaviour (requests issued, `time.sleep` calls) becomes an event trace;
* exceptions become `Except` / sum-like result types;
* the HTML tree produced by BeautifulSoup becomes a list of `Node`s, with
  `str(element)` as the node's rendered form; Python's bounded call stack
  (`RecursionError`) becomes an explicit recursion-depth fuel, with `none`
  standing for a crashed call.
-/

namespace LegalAI

/-! ## Data model of `app/services/extractor.py` -/

/-- `PageText` from `extractor.py` (lines 27-46): one page's extracted text.
Confidence is a rational standing for the Python float. -/
structure PageText where
  page_number : Nat
  text : String
  paragraphs : List String
  is_ocr : Bool := false
  confidence : Option ℚ := none
  deriving Repr, DecidableEq

/-- `ExtractionResult` from `extractor.py` (lines 48-78). -/
structure ExtractionResult where
  pages : List PageText
  success : Bool
  method_used : String
  total_pages : Nat
  error : Option String := none
  deriving Repr, DecidableEq

/-- The whitespace characters removed by Python's `str.strip()` (the ASCII
ones; `strip` also removes the rarer Unicode spaces, which none of the
properties below depend on). -/
def isPythonSpace (c : Char) : Bool :=
  c = ' ' || c = '\t' || c = '\n' || c = '\x0d' || c = '\x0b' || c = '\x0c'

/-- Truth-testing `not s.strip()` in Python: the string is empty after
stripping whitespace, i.e. every character is whitespace. -/
def isBlank (s : String) : Bool :=
  s.data.all isPythonSpace

/-- `ExtractionResult.is_empty` (extractor.py lines 64-67):
`len(self.pages) == 0 or all(not page.text.strip() for page in self.pages)`.
`not page.text.strip()` is truth-testing the stripped string, i.e. the
stripped text is blank. -/
def ExtractionResult.is_empty (r : ExtractionResult) : Bool :=
  r.pages.length == 0 || r.pages.all (fun p => isBlank p.text)

/-! ## `SarvamTranslator.translate_text` (translator.py lines 130-202)

The provider is abstracted as a function from the attempt number to the
response observed for that attempt.  The embedding returns the call's
outcome (`Except.error` models a raised `TranslationError`) together with
the trace of observable events: HTTP requests issued and `time.sleep`
calls with their duration (a rational standing for the Python float;
`retry_delay * (2 ** attempt)` is exact in binary floating point for the
values of interest, so the rational model is faithful). -/

/-- One provider response, as classified by the `translate_text` loop:
HTTP 200 (with the optional `translated_text` JSON field), HTTP 429 with an
optional integer `Retry-After` header, any other HTTP status, or a raised
`requests.RequestException`. -/
inductive ApiResponse where
  | success (translatedText : Option String)
  | rateLimited (retryAfter : Option Nat)
  | httpError (status : Nat) (body : String)
  | requestException (msg : String)
  deriving Repr, DecidableEq

/-- Whether a response is the HTTP-200 branch of the loop. -/
def ApiResponse.isSuccess : ApiResponse → Bool
  | .success _ => true
  | _ => false

/-- Observable events of one `translate_text` call. -/
inductive ApiEvent where
  | request (attempt : Nat)
  | sleep (attempt : Nat) (duration : ℚ)
  deriving Repr, DecidableEq

/-- Whether an event is an HTTP request. -/
def ApiEvent.isRequest : ApiEvent → Bool
  | .request _ => true
  | _ => false

/-- The exponential backoff computed in translator.py lines 179, 188, 197:
`self.retry_delay * (2 ** attempt)`. -/
def backoff (retryDelay : ℚ) (attempt : Nat) : ℚ :=
  retryDelay * 2 ^ attempt

/-- The retry loop of `translate_text` (translator.py lines 171-202):
`for attempt in range(self.retry_count)`, embedded as structural recursion
over the list of attempt indices (`List.range retryCount`).
Status 200 returns `result.get("translated_text", "")`; status 429 sleeps
for `int(response.headers.get("Retry-After", retry_delay * 2**attempt))`
and retries (the 429 branch sleeps even on the last attempt); any other
status and any `RequestException` sleep the computed backoff only when
`attempt < retry_count - 1`, and retry.  When the loop exhausts all
attempts it raises
`TranslationError(f"Translation failed after {retry_count} attempts")`. -/
def attemptLoop (responses : Nat → ApiResponse) (retryCount : Nat)
    (retryDelay : ℚ) : List Nat → Except String String × List ApiEvent
  | [] => (.error ("Translation failed after " ++ toString retryCount ++ " attempts"), [])
  | attempt :: restAttempts =>
    match responses attempt with
    | .success payload => (.ok (payload.getD ""), [.request attempt])
    | .rateLimited ra =>
        let waitTime : ℚ :=
          match ra with
          | some n => (n : ℚ)
          | none => ((backoff retryDelay attempt).floor : ℚ)
        let rest := attemptLoop responses retryCount retryDelay restAttempts
        (rest.1, .request attempt :: .sleep attempt waitTime :: rest.2)
    | .httpError _ _ =>
        let rest := attemptLoop responses retryCount retryDelay restAttempts
        if attempt < retryCount - 1 then
          (rest.1, .request attempt :: .sleep attempt (backoff retryDelay attempt) :: rest.2)
        else
          (rest.1, .request attempt :: rest.2)
    | .requestException _ =>
        let rest := attemptLoop responses retryCount retryDelay restAttempts
        if attempt < retryCount - 1 then
          (rest.1, .request attempt :: .sleep attempt (backoff retryDelay attempt) :: rest.2)
        else
          (rest.1, .request attempt :: rest.2)

/-- `SarvamTranslator.translate_text` (translator.py lines 130-202).
`if not text.strip(): return ""` short-circuits before any rate limiting
or HTTP activity; otherwise the retry loop runs over
`range(self.retry_count)`. -/
def translateText (text : String) (responses : Nat → ApiResponse)
    (retryCount : Nat) (retryDelay : ℚ) : Except String String × List ApiEvent :=
  if isBlank text then (.ok "", [])
  else attemptLoop responses retryCount retryDelay (List.range retryCount)

/-- The sleep durations `translate_text` may produce for attempt `a`:
the integer `Retry-After` header on a 429, the truncated backoff
`int(retry_delay * 2**attempt)` on a 429 without that header, or the exact
backoff `retry_delay * 2**attempt` for other retryable failures. -/
def sleepSpec (responses : Nat → ApiResponse) (retryDelay : ℚ)
    (a : Nat) (d : ℚ) : Prop :=
  (∃ n, responses a = .rateLimited (some n) ∧ d = n) ∨
  (responses a = .rateLimited none ∧ d = ((backoff retryDelay a).floor : ℚ)) ∨
  (d = backoff retryDelay a ∧
    ((∃ st b, responses a = .httpError st b) ∨ ∃ m, responses a = .requestException m))

/-- The events a single loop iteration contributes for a given attempt
(the cons cells of `attemptLoop`, named so the trace can be decomposed). -/
def stepTrace (responses : Nat → ApiResponse) (retryCount : Nat)
    (retryDelay : ℚ) (attempt : Nat) : List ApiEvent :=
  match responses attempt with
  | .success _ => [.request attempt]
  | .rateLimited ra =>
      let waitTime : ℚ :=
        match ra with
        | some n => (n : ℚ)
        | none => ((backoff retryDelay attempt).floor : ℚ)
      [.request attempt, .sleep attempt waitTime]
  | .httpError _ _ =>
      if attempt < retryCount - 1 then
        [.request attempt, .sleep attempt (backoff retryDelay attempt)]
      else [.request attempt]
  | .requestException _ =>
      if attempt < retryCount - 1 then
        [.request attempt, .sleep attempt (backoff retryDelay attempt)]
      else [.request attempt]

/-! ## `SarvamTranslator._chunk_html` (translator.py lines 241-315)

BeautifulSoup's parse of the HTML content is a tree of nodes: a node is
either a text node (`element.name is None`, whose `str()` is the parsed,
entity-unescaped text) or a tag element, whose `str()` is its serialized
form.  A parsed document (`SoupDoc`) keeps the original `html_content`
string (whose length the guard of line 252 tests) separate from the
parse, because parsing and serialization are not inverse to each other:
entities are unescaped inside text nodes and malformed markup is dropped.
Line 260 iterates `soup.body.children if soup.body else soup.children`,
so when a `<body>` tag is present everything outside it is skipped.
The recursive call `self._chunk_html(str(element), ...)` for an oversized
element (line 289) operates on the re-parse of that element's
serialization (`reparse`): re-parsing a well-formed serialized tag yields
that tag back — for a `body` tag the recursive call therefore iterates
its children, while for any other tag it iterates the same element again,
an unbounded recursion.  Python's bounded call stack is an explicit
`fuel` argument: `none` models the `RecursionError` crash. -/

/-- A BeautifulSoup node as observed by `_chunk_html`:
`element.name is None` (a text node, serialized as its parsed text) or a
tag element with a name, its serialized form `str(element)`, and its
child nodes (which line 260 iterates when the tag is a `body`). -/
inductive Node where
  | text (s : String)
  | tag (name : String) (rendered : String) (children : List Node)

mutual

/-- All text-node strings in a node's subtree. -/
def textsOf : Node → List String
  | .text s => [s]
  | .tag _ _ ch => textsIn ch

/-- All text-node strings in a forest. -/
def textsIn : List Node → List String
  | [] => []
  | nd :: rest => textsOf nd ++ textsIn rest

end

/-- Concatenation of a list of strings (chunk reassembly,
`"".join(translated_chunks)` in `translate_html`, translator.py line 239). -/
def concatStrings : List String → String
  | [] => ""
  | s :: rest => s ++ concatStrings rest

/-- `TranslatedPage` from translator.py lines 36-57. -/
structure TranslatedPage where
  page_number : Nat
  original_text : String
  translated_text : String
  html_translated : String
  source_language : String
  target_language : String
  deriving Repr, DecidableEq

/-- `TranslationResult` from translator.py lines 59-90. -/
structure TranslationResult where
  pages : List TranslatedPage
  success : Bool
  source_language : String
  target_language : String
  total_pages : Nat
  error : Option String := none
  deriving Repr, DecidableEq

/-- `html.escape(paragraph)` (translator.py line 417): Python's
`html.escape` with the default `quote=True`, replacing in this order
`&`, `<`, `>`, `"`, `'`. -/
def htmlEscape (s : String) : String :=
  ((((s.replace "&" "&amp;").replace "<" "&lt;").replace ">" "&gt;").replace
    "\x22" "&quot;").replace "\x27" "&#x27;"

/-- Python's `str.strip()` over the ASCII whitespace characters. -/
def pyStrip (s : String) : String :=
  String.mk (((s.data.dropWhile isPythonSpace).reverse.dropWhile isPythonSpace).reverse)

/-- `SarvamTranslator._page_to_html` (translator.py lines 399-426):
a page `div`, the page number `div`, then each paragraph as `<h3>` if the
heading heuristic of line 420 fires (shorter than 100 characters, stripped
text ends in `:` or `.`, no newline), else as `<p>`. -/
def pageToHtml (page : PageText) : String :=
  "<div class=\x22page\x22>" ++
    ("<div class=\x22page-number\x22>" ++ toString page.page_number ++ "</div>") ++
    concatStrings (page.paragraphs.map fun paragraph =>
      let escaped := htmlEscape paragraph
      if paragraph.length < 100 &&
          ((pyStrip paragraph).data.getLast?.elim false fun c => c = ':' || c = '.') &&
          !(paragraph.data.any fun c => c = '\n') then
        "<h3>" ++ escaped ++ "</h3>"
      else
        "<p>" ++ escaped ++ "</p>") ++
    "</div>"

/-- The page loop of `translate_extraction_result` (translator.py lines
350-378).  `oracle i html` is the call
`self.translate_html(html, ...)` for page index `i` — `Except.error`
models any exception raised inside the `try` block (network failure,
`TranslationError`, a raising progress callback); `extractFn` is the
pure `_extract_text_from_html`.  Returns the outcome together with the
list of page indices for which `translate_html` was entered. -/
def translatePages (oracle : Nat → String → Except String String)
    (extractFn : String → String) (src tgt : String) :
    List (Nat × PageText) → Except String (List TranslatedPage) × List Nat
  | [] => (.ok [], [])
  | (i, page) :: rest =>
    match oracle i (pageToHtml page) with
    | .error m => (.error m, [i])
    | .ok ht =>
      let r := translatePages oracle extractFn src tgt rest
      (r.1.map fun pages =>
        { page_number := page.page_number
          original_text := page.text
          translated_text := extractFn ht
          html_translated := ht
          source_language := src
          target_language := tgt } :: pages, i :: r.2)

/-- `SarvamTranslator.translate_extraction_result` (translator.py lines
317-397).  A failed extraction short-circuits to a failed
`TranslationResult` (lines 336-344, with `f"Extraction failed:
{extraction_result.error}"` printing `None` for a missing message);
otherwise the page loop runs inside `try`, and any raised exception is
caught and converted to a failed result with empty pages (lines 388-397).
The second component is the list of page indices sent to
`translate_html`. -/
def translateExtractionResult (er : ExtractionResult) (src tgt : String)
    (oracle : Nat → String → Except String String)
    (extractFn : String → String) : TranslationResult × List Nat :=
  if er.success = false then
    ({ pages := [], success := false, source_language := src, target_language := tgt,
       total_pages := er.total_pages,
       error := some ("Extraction failed: " ++ er.error.getD "None") }, [])
  else
    match translatePages oracle extractFn src tgt er.pages.enum with
    | (.ok tpages, calls) =>
      ({ pages := tpages, success := true, source_language := src, target_language := tgt,
         total_pages := er.pages.length, error := none }, calls)
    | (.error m, calls) =>
      ({ pages := [], success := false, source_language := src, target_language := tgt,
         total_pages := er.total_pages,
         error := some ("Translation failed: " ++ m) }, calls)

/-! ## `extract_text_from_pdf` (extractor.py lines 84-169) -/

/-- The observable outcome of one extraction strategy
(`_extract_with_pdfplumber`, `_extract_with_pypdf2`, `_extract_with_ocr`):
either it raises (each wraps its failures in an `ExtractionError` with its
own message) or it returns an `ExtractionResult`. -/
inductive MethodOutcome where
  | raises (msg : String)
  | returns (result : ExtractionResult)
  deriving Repr, DecidableEq

/-- The observable outcome of `extract_text_from_pdf` itself: a returned
`ExtractionResult`, a raised `FileNotFoundError` (line 108), or a raised
`ExtractionError` — the last constructor is what the spec claims for the
all-strategies-failed case; the theorems show it is never produced. -/
inductive ExtractOutcome where
  | returns (result : ExtractionResult)
  | raisesFileNotFound (msg : String)
  | raisesExtractionError (msg : String)
  deriving Repr, DecidableEq

/-- Whether the outcome is a raised `ExtractionError`. -/
def ExtractOutcome.raisesExtraction : ExtractOutcome → Bool
  | .raisesExtractionError _ => true
  | _ => false

/-- The strategy loop of `extract_text_from_pdf` (extractor.py lines
130-169): try each `(method, name)` in order; a successful non-empty
result is returned at once; a successful empty result records
`ExtractionError(f"No text extracted with {name}")` as the last error and
falls through; a raised exception records itself as the last error and
falls through.  After the loop the function RETURNS (does not raise) a
failure `ExtractionResult` carrying
`str(last_error) if last_error else "All extraction methods failed"`. -/
def extractLoop (totalPages : Nat) :
    List (String × MethodOutcome) → Option String → ExtractionResult
  | [], lastError =>
    { pages := [], success := false, method_used := "none", total_pages := totalPages,
      error := some (lastError.getD "All extraction methods failed") }
  | (name, outcome) :: rest, lastError =>
    match outcome with
    | .raises m => extractLoop totalPages rest (some m)
    | .returns r =>
      if r.success && !r.is_empty then r
      else if r.success && r.is_empty then
        extractLoop totalPages rest (some ("No text extracted with " ++ name))
      else
        extractLoop totalPages rest lastError

/-- `extract_text_from_pdf` (extractor.py lines 84-169) over the outcomes
of its three strategies.  A missing file raises `FileNotFoundError`
(line 108); otherwise the strategy loop runs and its result is returned. -/
def extractTextFromPdf (fileExists : Bool) (totalPages : Nat)
    (methods : List (String × MethodOutcome)) : ExtractOutcome :=
  if !fileExists then .raisesFileNotFound "PDF file not found"
  else .returns (extractLoop totalPages methods none)

/-! ## `SupabaseClient.update_job_progress` (supabase_client.py 190-235)
and the orchestrator `_process_translation_job` (routes/translate.py 77-173) -/

/-- The fields `update_job_progress` persists for one update. -/
structure JobWrite where
  progress : Int
  status : Option String
  error_message : Option String
  deriving Repr, DecidableEq

/-- The update record built by `update_job_progress` (supabase_client.py
lines 212-226): the progress is clamped by
`progress = max(0, min(100, progress))`, and the status / error-message
fields are included only when truthy (non-`None` and non-empty). -/
def mkUpdateData (progress : Int) (status : Option String)
    (errorMessage : Option String) : JobWrite :=
  { progress := max 0 (min 100 progress)
    status := match status with
      | some st => if st ≠ "" then some st else none
      | none => none
    error_message := match errorMessage with
      | some m => if m ≠ "" then some m else none
      | none => none }

/-- Outcome of one orchestration step: it either completes or raises with
a message. -/
inductive StepResult where
  | ok
  | fail (msg : String)
  deriving Repr, DecidableEq

/-- One run of the orchestrator, as decided by its environment: the job's
status when `start_translation` reads it, the outcome of each pipeline
step, and the intra-translation progress percentages delivered to the
progress callback.

Modelled from the spec for the callback: the `translate_chunks` method the
orchestrator calls (routes/translate.py line 228) does not exist in the
checked-in services, so per the spec the provider client "invokes
`on_progress` so the Orchestrator can map intra-stage progress onto
overall job progress" onto the fixed 40-70% sub-range — i.e. the callback
receives a non-decreasing sequence of percentages in `[0, 100]`. -/
structure JobScenario where
  initialStatus : String
  download : StepResult
  extract : StepResult
  callbackPercents : List Nat
  translate : StepResult
  build : StepResult
  upload : StepResult
  link : StepResult
  deriving Repr, DecidableEq

/-- The progress write issued by the callback lambda of
routes/translate.py lines 115-119:
`update_job_progress(job_id, 40 + int((progress / 100) * 30),
"translating")`.  `int((p / 100) * 30)` equals `3 * p / 10` in exact
arithmetic for every natural percentage (the float intermediate is within
`10^-13` of the exact value, whose distance to the truncation boundary is
at least one tenth unless exact, in which case the float error is upward
and truncation agrees). -/
def callbackWrite (p : Nat) : JobWrite :=
  mkUpdateData ((40 + 3 * p / 10 : Nat) : Int) (some "translating") none

/-- The body of `_process_translation_job` (routes/translate.py lines
94-164): the sequence of `update_job_progress` writes it issues, and
`some msg` for the exception that reaches the `except` block (each helper
wraps its failures with the message prefixes of lines 195, 209, 248, 271,
301; the final output-file link update of lines 139-141 raises
unwrapped). -/
def processJob (s : JobScenario) : List JobWrite × Option String :=
  let ws := [mkUpdateData 15 (some "extracting") none]
  match s.download with
  | .fail m => (ws, some ("Failed to download PDF: " ++ m))
  | .ok =>
    let ws := ws ++ [mkUpdateData 25 (some "extracting") none]
    match s.extract with
    | .fail m => (ws, some ("Text extraction failed: " ++ m))
    | .ok =>
      let ws := ws ++ [mkUpdateData 40 (some "translating") none] ++
        s.callbackPercents.map callbackWrite
      match s.translate with
      | .fail m => (ws, some ("Translation failed: " ++ m))
      | .ok =>
        let ws := ws ++ [mkUpdateData 75 (some "building") none]
        match s.build with
        | .fail m => (ws, some ("PDF building failed: " ++ m))
        | .ok =>
          let ws := ws ++ [mkUpdateData 85 (some "building") none]
          match s.upload with
          | .fail m => (ws, some ("Failed to upload result PDF: " ++ m))
          | .ok =>
            let ws := ws ++ [mkUpdateData 100 (some "done") none]
            match s.link with
            | .fail m => (ws, some m)
            | .ok => (ws, none)

/-- `start_translation` then `_process_translation_job`
(routes/translate.py lines 38-173): a job whose status is neither
`pending` nor `processing` is rejected with no writes; otherwise the
status is set to `processing` at progress 10 (line 62) and the workflow
runs; an exception reaching the `except` block issues the error write
`update_job_progress(job_id, progress=0, status="error",
error_message=str(e))` of lines 155-160.  Returns the ordered write
sequence and whether the job completed. -/
def runJob (s : JobScenario) : List JobWrite × Bool :=
  if s.initialStatus = "pending" ∨ s.initialStatus = "processing" then
    let pw := mkUpdateData 10 (some "processing") none
    match processJob s with
    | (ws, none) => (pw :: ws, true)
    | (ws, some m) => (pw :: (ws ++ [mkUpdateData 0 (some "error") (some m)]), false)
  else ([], false)

end LegalAI

namespace LegalAI

/-! ## Lemmas about the retry loop -/

/-- Trace decomposition: the loop's trace is the head attempt's events
followed by the remaining trace, unless the head attempt succeeded (which
returns out of the loop). -/
theorem attemptLoop_trace_cons (responses : Nat → ApiResponse) (retryCount : Nat)
    (retryDelay : ℚ) (attempt : Nat) (rest : List Nat) :
    (attemptLoop responses retryCount retryDelay (attempt :: rest)).2 =
      stepTrace responses retryCount retryDelay attempt ++
        (if (responses attempt).isSuccess then []
         else (attemptLoop responses retryCount retryDelay rest).2) := by
  cases hr : responses attempt <;>
    simp only [attemptLoop, stepTrace, ApiResponse.isSuccess, hr] <;>
    (try split) <;> simp_all

/-- Result decomposition: the loop's result is the 200-payload if the head
attempt succeeded, and otherwise the result of the remaining attempts. -/
theorem attemptLoop_fst_cons (responses : Nat → ApiResponse) (retryCount : Nat)
    (retryDelay : ℚ) (attempt : Nat) (rest : List Nat) :
    (attemptLoop responses retryCount retryDelay (attempt :: rest)).1 =
      match responses attempt with
      | .success payload => .ok (payload.getD "")
      | _ => (attemptLoop responses retryCount retryDelay rest).1 := by
  cases hr : responses attempt <;>
    simp only [attemptLoop, hr] <;> (try split) <;> simp

/-- A single iteration issues exactly one request. -/
theorem stepTrace_countP (responses : Nat → ApiResponse) (retryCount : Nat)
    (retryDelay : ℚ) (attempt : Nat) :
    (stepTrace responses retryCount retryDelay attempt).countP ApiEvent.isRequest = 1 := by
  cases hr : responses attempt <;>
    simp only [stepTrace, hr] <;> (try split) <;>
    simp [List.countP_cons, ApiEvent.isRequest]

/-- The only request a single iteration issues is for its own attempt. -/
theorem stepTrace_request (responses : Nat → ApiResponse) (retryCount : Nat)
    (retryDelay : ℚ) (attempt : Nat) :
    ∀ a, ApiEvent.request a ∈ stepTrace responses retryCount retryDelay attempt →
      a = attempt := by
  intro a ha
  cases hr : responses attempt <;>
    rw [stepTrace] at ha <;> simp only [hr] at ha <;>
    (try split at ha) <;> simp_all

/-- Every sleep a single iteration emits follows the backoff policy. -/
theorem stepTrace_sleep (responses : Nat → ApiResponse) (retryCount : Nat)
    (retryDelay : ℚ) (attempt : Nat) :
    ∀ a d, ApiEvent.sleep a d ∈ stepTrace responses retryCount retryDelay attempt →
      sleepSpec responses retryDelay a d := by
  intro a d ha
  cases hr : responses attempt with
  | success payload => rw [stepTrace] at ha; simp [hr] at ha
  | rateLimited ra =>
    rw [stepTrace] at ha; simp only [hr] at ha
    simp at ha
    obtain ⟨h1, h2⟩ := ha
    subst h1
    cases ra with
    | some n => exact Or.inl ⟨n, hr, by simpa using h2⟩
    | none => exact Or.inr (Or.inl ⟨hr, by simpa using h2⟩)
  | httpError st b =>
    rw [stepTrace] at ha; simp only [hr] at ha
    split at ha <;> simp at ha
    obtain ⟨h1, h2⟩ := ha
    subst h1; subst h2
    exact Or.inr (Or.inr ⟨rfl, Or.inl ⟨st, b, hr⟩⟩)
  | requestException m =>
    rw [stepTrace] at ha; simp only [hr] at ha
    split at ha <;> simp at ha
    obtain ⟨h1, h2⟩ := ha
    subst h1; subst h2
    exact Or.inr (Or.inr ⟨rfl, Or.inr ⟨m, hr⟩⟩)

/-- Every request in the loop's trace carries an attempt index drawn from
the list of attempts. -/
theorem attemptLoop_request_mem (responses : Nat → ApiResponse) (retryCount : Nat)
    (retryDelay : ℚ) (l : List Nat) :
    ∀ a, ApiEvent.request a ∈ (attemptLoop responses retryCount retryDelay l).2 →
      a ∈ l := by
  induction l with
  | nil => intro a ha; simp [attemptLoop] at ha
  | cons attempt rest ih =>
    intro a ha
    rw [attemptLoop_trace_cons] at ha
    rcases List.mem_append.mp ha with h | h
    · simp [stepTrace_request responses retryCount retryDelay attempt a h]
    · split at h
      · simp at h
      · exact List.mem_cons_of_mem _ (ih a h)

/-- The loop issues at most one request per attempt in its list. -/
theorem attemptLoop_request_count (responses : Nat → ApiResponse) (retryCount : Nat)
    (retryDelay : ℚ) (l : List Nat) :
    ((attemptLoop responses retryCount retryDelay l).2.countP ApiEvent.isRequest) ≤
      l.length := by
  induction l with
  | nil => simp [attemptLoop]
  | cons attempt rest ih =>
    rw [attemptLoop_trace_cons, List.countP_append, stepTrace_countP]
    split <;> simp <;> omega

/-- Every sleep in the loop's trace follows the backoff policy of
`sleepSpec`. -/
theorem attemptLoop_sleep_spec (responses : Nat → ApiResponse) (retryCount : Nat)
    (retryDelay : ℚ) (l : List Nat) :
    ∀ a d, ApiEvent.sleep a d ∈ (attemptLoop responses retryCount retryDelay l).2 →
      sleepSpec responses retryDelay a d := by
  induction l with
  | nil => intro a d ha; simp [attemptLoop] at ha
  | cons attempt rest ih =>
    intro a d ha
    rw [attemptLoop_trace_cons] at ha
    rcases List.mem_append.mp ha with h | h
    · exact stepTrace_sleep responses retryCount retryDelay attempt a d h
    · split at h
      · simp at h
      · exact ih a d h

/-- When no attempt in the list succeeds, the loop raises the
`TranslationError` of translator.py line 202 and has issued exactly one
request per attempt. -/
theorem attemptLoop_exhausted (responses : Nat → ApiResponse) (retryCount : Nat)
    (retryDelay : ℚ) (l : List Nat)
    (hfail : ∀ i ∈ l, (responses i).isSuccess = false) :
    (attemptLoop responses retryCount retryDelay l).1 =
        .error ("Translation failed after " ++ toString retryCount ++ " attempts") ∧
      ((attemptLoop responses retryCount retryDelay l).2.countP ApiEvent.isRequest) =
        l.length := by
  induction l with
  | nil => simp [attemptLoop]
  | cons attempt rest ih =>
    have hhead : (responses attempt).isSuccess = false :=
      hfail attempt (List.mem_cons_self _ _)
    have ihr := ih (fun i hi => hfail i (List.mem_cons_of_mem _ hi))
    constructor
    · rw [attemptLoop_fst_cons]
      cases hr : responses attempt <;> simp_all [ApiResponse.isSuccess]
    · rw [attemptLoop_trace_cons, List.countP_append, stepTrace_countP, hhead]
      simp [ihr.2]
      omega

/-! ## Claim theorems about `translate_text` -/

/-- C7: for every input text that is empty or whitespace-only,
`translate_text` returns the empty string and performs no network request
(and no other observable event): translator.py lines 150-151. -/
theorem translate_text_blank_short_circuit (text : String)
    (responses : Nat → ApiResponse) (retryCount : Nat) (retryDelay : ℚ)
    (h : isBlank text = true) :
    translateText text responses retryCount retryDelay = (.ok "", []) := by
  simp [translateText, h]

/-- C7 witness: the whitespace-only text `"  "` short-circuits against a
provider stub that would always fail. -/
theorem translate_text_blank_short_circuit_witness :
    translateText "  " (fun _ => .httpError 500 "err") 3 1 = (.ok "", []) :=
  translate_text_blank_short_circuit "  " (fun _ => .httpError 500 "err") 3 1 (by decide)

/-- C3 counterexample: against a provider that always answers HTTP 401
("unauthorized"), `translate_text` with the default `retry_count = 3` and
`retry_delay = 1` does NOT raise on the first response: it issues three
requests and only then raises `TranslationError`.  The claim's
"performing no further retry attempts" would require exactly one
request. -/
theorem translate_text_401_retries_counterexample :
    (translateText "hello" (fun _ => .httpError 401 "Unauthorized") 3 1).1 =
      .error "Translation failed after 3 attempts" ∧
    (translateText "hello" (fun _ => .httpError 401 "Unauthorized") 3 1).2.countP
        ApiEvent.isRequest = 3 ∧
    ¬ (translateText "hello" (fun _ => .httpError 401 "Unauthorized") 3 1).2.countP
        ApiEvent.isRequest = 1 := by
  refine ⟨?_, by decide, by decide⟩
  rfl

/-- C3 amended: HTTP 400/401 responses are not treated as non-retryable;
`translate_text` retries every non-200 response alike, and raises
`TranslationError` only after all `retry_count` attempts have failed
(issuing exactly one request per attempt). -/
theorem translate_text_all_failures_retried (text : String)
    (responses : Nat → ApiResponse) (retryCount : Nat) (retryDelay : ℚ)
    (htext : isBlank text = false)
    (hfail : ∀ i, i < retryCount → (responses i).isSuccess = false) :
    (translateText text responses retryCount retryDelay).1 =
      .error ("Translation failed after " ++ toString retryCount ++ " attempts") ∧
    (translateText text responses retryCount retryDelay).2.countP
      ApiEvent.isRequest = retryCount := by
  simp only [translateText, htext, if_neg Bool.false_ne_true, Bool.false_eq_true, if_false]
  have h := attemptLoop_exhausted responses retryCount retryDelay
    (List.range retryCount) (fun i hi => hfail i (List.mem_range.mp hi))
  simpa [List.length_range] using h

/-- C3 amended witness: all-401 provider, `retry_count = 3`. -/
theorem translate_text_all_failures_retried_witness :
    (translateText "hello" (fun _ => .httpError 401 "Forbidden") 3 1).1 =
      .error ("Translation failed after " ++ toString 3 ++ " attempts") ∧
    (translateText "hello" (fun _ => .httpError 401 "Forbidden") 3 1).2.countP
      ApiEvent.isRequest = 3 :=
  translate_text_all_failures_retried "hello" (fun _ => .httpError 401 "Forbidden")
    3 1 (by decide) (by decide)

/-- C6: for every non-blank chunk text, `translate_text` issues at most
`retry_count` requests, each for an attempt index below `retry_count`;
every wait between attempts follows the exponential backoff
`retry_delay * 2 ^ attempt` (doubling each attempt, starting at
`retry_delay`), except that a provider-supplied `Retry-After` value
overrides the computed backoff on rate-limited (429) responses; and when
all `retry_count` attempts fail it raises `TranslationError`. -/
theorem translate_text_retry_policy (text : String)
    (responses : Nat → ApiResponse) (retryCount : Nat) (retryDelay : ℚ)
    (htext : isBlank text = false) :
    (∀ a, ApiEvent.request a ∈ (translateText text responses retryCount retryDelay).2 →
        a < retryCount) ∧
    (translateText text responses retryCount retryDelay).2.countP
        ApiEvent.isRequest ≤ retryCount ∧
    (∀ a d, ApiEvent.sleep a d ∈ (translateText text responses retryCount retryDelay).2 →
        sleepSpec responses retryDelay a d) ∧
    ((∀ i, i < retryCount → (responses i).isSuccess = false) →
      (translateText text responses retryCount retryDelay).1 =
        .error ("Translation failed after " ++ toString retryCount ++ " attempts")) := by
  simp only [translateText, htext, if_neg Bool.false_ne_true, Bool.false_eq_true, if_false]
  refine ⟨?_, ?_, ?_, ?_⟩
  · intro a ha
    exact List.mem_range.mp (attemptLoop_request_mem responses retryCount retryDelay _ a ha)
  · have h := attemptLoop_request_count responses retryCount retryDelay (List.range retryCount)
    simpa [List.length_range] using h
  · exact fun a d => attemptLoop_sleep_spec responses retryCount retryDelay _ a d
  · intro hfail
    exact (attemptLoop_exhausted responses retryCount retryDelay (List.range retryCount)
      (fun i hi => hfail i (List.mem_range.mp hi))).1

/-- C6 witness: a provider stub that is always rate-limited without a
`Retry-After` header, `retry_count = 2`, `retry_delay = 1`. -/
theorem translate_text_retry_policy_witness :
    (∀ a, ApiEvent.request a ∈ (translateText "hi" (fun _ => .rateLimited none) 2 1).2 →
        a < 2) ∧
    (translateText "hi" (fun _ => .rateLimited none) 2 1).2.countP
        ApiEvent.isRequest ≤ 2 ∧
    (∀ a d, ApiEvent.sleep a d ∈ (translateText "hi" (fun _ => .rateLimited none) 2 1).2 →
        sleepSpec (fun _ => .rateLimited none) 1 a d) ∧
    ((∀ i, i < 2 → (ApiResponse.rateLimited none).isSuccess = false) →
      (translateText "hi" (fun _ => .rateLimited none) 2 1).1 =
        .error ("Translation failed after " ++ toString 2 ++ " attempts")) :=
  translate_text_retry_policy "hi" (fun _ => .rateLimited none) 2 1 (by decide)

/-! ## Lemmas about the chunker -/

/-- C8: `is_empty` is true exactly when every page's text is blank (has
no non-whitespace character); in particular a result with zero pages is
empty. -/
theorem is_empty_iff_all_pages_blank (r : ExtractionResult) :
    (r.is_empty = true ↔
      ∀ p ∈ r.pages, ∀ c ∈ p.text.data, isPythonSpace c = true) ∧
    (r.pages = [] → r.is_empty = true) := by
  constructor
  · simp only [ExtractionResult.is_empty, Bool.or_eq_true, beq_iff_eq,
      List.length_eq_zero, List.all_eq_true, isBlank]
    constructor
    · rintro (h | h)
      · intro p hp
        rw [h] at hp
        exact absurd hp (List.not_mem_nil p)
      · exact h
    · exact Or.inr
  · intro h
    simp [ExtractionResult.is_empty, h]

/-- C8 witness: a result with zero pages is empty. -/
theorem is_empty_iff_all_pages_blank_witness :
    (⟨[], true, "pdfplumber", 0, none⟩ : ExtractionResult).is_empty = true :=
  (is_empty_iff_all_pages_blank ⟨[], true, "pdfplumber", 0, none⟩).2 rfl

/-! ## Claim theorem about `extract_text_from_pdf` -/

/-- C2 (code bug witness): when all three strategies raise,
`extract_text_from_pdf` RETURNS `ExtractionResult(success=False,
method_used="none")` carrying the last observed error message — it does
not raise the `ExtractionError` that the claim (and the function's own
docstring, extractor.py lines 103-105) promises; in fact no input makes
it raise an `ExtractionError` at all. -/
theorem extract_all_fail_returns_instead_of_raising :
    extractTextFromPdf true 3
        [("pdfplumber", .raises "pdfplumber extraction failed: bad xref"),
         ("PyPDF2", .raises "PyPDF2 extraction failed: bad xref"),
         ("tesseract-ocr", .raises "OCR extraction failed: bad xref")] =
      .returns { pages := [], success := false, method_used := "none", total_pages := 3,
                 error := some "OCR extraction failed: bad xref" } ∧
    ∀ fileExists totalPages methods,
      (extractTextFromPdf fileExists totalPages methods).raisesExtraction = false := by
  constructor
  · rfl
  · intro fileExists totalPages methods
    rw [extractTextFromPdf]
    split
    · rfl
    · rfl

/-! ## Claim theorem about `update_job_progress` -/

/-- C10: `update_job_progress` clamps the supplied progress into
`[0, 100]` (`progress = max(0, min(100, progress))`,
supabase_client.py line 214) before persisting it, so every persisted
progress value lies in `[0, 100]`. -/
theorem update_job_progress_clamps (p : Int) (st em : Option String) :
    (mkUpdateData p st em).progress = max 0 (min 100 p) ∧
    0 ≤ (mkUpdateData p st em).progress ∧
    (mkUpdateData p st em).progress ≤ 100 := by
  refine ⟨rfl, ?_, ?_⟩
  · show (0 : Int) ≤ max 0 (min 100 p)
    omega
  · show max 0 (min 100 p) ≤ (100 : Int)
    omega

/-! ## Claim theorem about `translate_extraction_result` -/

/-- C9: `translate_extraction_result` always returns a
`TranslationResult` (exceptions inside the page loop are caught by the
`except` block and the failed-extraction case short-circuits before it):
whenever the returned result has `success = False` its page list is empty
and its error message is present; and a failed extraction yields a failed
result without any `translate_html` call. -/
theorem translate_extraction_result_failure_contract (er : ExtractionResult)
    (src tgt : String) (oracle : Nat → String → Except String String)
    (extractFn : String → String) :
    ((translateExtractionResult er src tgt oracle extractFn).1.success = false →
      (translateExtractionResult er src tgt oracle extractFn).1.pages = [] ∧
      (translateExtractionResult er src tgt oracle extractFn).1.error.isSome = true) ∧
    (er.success = false →
      (translateExtractionResult er src tgt oracle extractFn).1.success = false ∧
      (translateExtractionResult er src tgt oracle extractFn).2 = []) := by
  rw [translateExtractionResult]
  by_cases hs : er.success = false
  · rw [if_pos hs]
    exact ⟨fun _ => ⟨rfl, rfl⟩, fun _ => ⟨rfl, rfl⟩⟩
  · rw [if_neg hs]
    rcases htp : translatePages oracle extractFn src tgt er.pages.enum with ⟨res, calls⟩
    cases res with
    | ok tpages =>
      refine ⟨fun hfalse => ?_, fun hfail => absurd hfail hs⟩
      simp at hfalse
    | error m =>
      exact ⟨fun _ => ⟨rfl, rfl⟩, fun hfail => absurd hfail hs⟩

/-- C9 witness: a failed extraction result produces a failed translation
result with no pages, an error message, and no provider calls. -/
theorem translate_extraction_result_failure_contract_witness :
    (translateExtractionResult ⟨[], false, "none", 0, some "boom"⟩ "gu" "en"
        (fun _ _ => .ok "") (fun s => s)).1.success = false ∧
    (translateExtractionResult ⟨[], false, "none", 0, some "boom"⟩ "gu" "en"
        (fun _ _ => .ok "") (fun s => s)).1.pages = [] ∧
    (translateExtractionResult ⟨[], false, "none", 0, some "boom"⟩ "gu" "en"
        (fun _ _ => .ok "") (fun s => s)).1.error.isSome = true ∧
    (translateExtractionResult ⟨[], false, "none", 0, some "boom"⟩ "gu" "en"
        (fun _ _ => .ok "") (fun s => s)).2 = [] := by
  have h := translate_extraction_result_failure_contract
    ⟨[], false, "none", 0, some "boom"⟩ "gu" "en" (fun _ _ => .ok "") (fun s => s)
  have h2 := h.2 rfl
  exact ⟨h2.1, (h.1 h2.1).1, (h.1 h2.1).2, h2.2⟩

/-! ## Lemmas about the orchestrator's progress writes -/

/-- The callback's stored progress is at least 40. -/
theorem callbackWrite_progress_ge (p : Nat) : 40 ≤ (callbackWrite p).progress := by
  show (40 : Int) ≤ max 0 (min 100 ((40 + 3 * p / 10 : Nat) : Int))
  omega

/-- With a percentage at most 100, the callback's stored progress is at
most 70 (hence below the subsequent fixed write of 75). -/
theorem callbackWrite_progress_le (p : Nat) (h : p ≤ 100) :
    (callbackWrite p).progress ≤ 75 := by
  show max 0 (min 100 ((40 + 3 * p / 10 : Nat) : Int)) ≤ 75
  omega

/-- The callback's stored progress is monotone in the percentage. -/
theorem callbackWrite_mono (p q : Nat) (h : p ≤ q) :
    (callbackWrite p).progress ≤ (callbackWrite q).progress := by
  show max 0 (min 100 ((40 + 3 * p / 10 : Nat) : Int)) ≤
    max 0 (min 100 ((40 + 3 * q / 10 : Nat) : Int))
  omega

/-- A list prefix extended on the left by a common list. -/
theorem prefix_append_both {α : Type} (a : List α) {b c : List α} (h : b <+: c) :
    a ++ b <+: a ++ c := by
  obtain ⟨t, rfl⟩ := h
  exact ⟨t, by rw [List.append_assoc]⟩

/-- The progress values of the full successful write sequence form a
non-decreasing chain, provided the callback percentages are non-decreasing
and at most 100. -/
theorem orchestrator_chain_master (ps : List Nat)
    (hcb : List.Chain' (· ≤ ·) ps) (hbound : ∀ p ∈ ps, p ≤ 100) :
    List.Chain' (· ≤ ·) (List.map JobWrite.progress
      ([mkUpdateData 10 (some "processing") none,
        mkUpdateData 15 (some "extracting") none,
        mkUpdateData 25 (some "extracting") none,
        mkUpdateData 40 (some "translating") none] ++
       (ps.map callbackWrite ++
        [mkUpdateData 75 (some "building") none,
         mkUpdateData 85 (some "building") none,
         mkUpdateData 100 (some "done") none]))) := by
  rw [List.map_append, List.chain'_append]
  refine ⟨?_, ?_, ?_⟩
  · simp only [List.map_cons, List.map_nil, List.chain'_cons,
      List.chain'_singleton, and_true, mkUpdateData]
    omega
  · rw [List.map_append, List.chain'_append]
    refine ⟨?_, ?_, ?_⟩
    · rw [List.map_map, List.chain'_map]
      exact hcb.imp (fun a b hab => callbackWrite_mono a b hab)
    · simp only [List.map_cons, List.map_nil, List.chain'_cons,
        List.chain'_singleton, and_true, mkUpdateData]
      omega
    · intro x hx y hy
      have hy75 : y = 75 := by
        simp only [List.map_cons, List.head?_cons, Option.mem_def,
          Option.some_inj] at hy
        rw [← hy]
        rfl
      subst hy75
      rw [List.map_map, List.getLast?_map] at hx
      simp only [Option.mem_def, Option.map_eq_some'] at hx
      obtain ⟨p, hp, rfl⟩ := hx
      have hpmem : p ∈ ps := by
        obtain ⟨hne, heq⟩ := List.mem_getLast?_eq_getLast hp
        rw [heq]
        exact List.getLast_mem hne
      exact callbackWrite_progress_le p (hbound p hpmem)
  · intro x hx y hy
    have hx40 : (mkUpdateData 40 (some "translating") none).progress = x := by
      simp only [List.map_cons, List.map_nil] at hx
      simpa using hx
    subst hx40
    cases ps with
    | nil =>
      simp only [List.map_nil, List.nil_append, List.map_cons,
        List.head?_cons, Option.mem_def, Option.some_inj] at hy
      rw [← hy]
      show max 0 (min 100 (40 : Int)) ≤ max 0 (min 100 75)
      omega
    | cons p0 pr =>
      simp only [List.map_cons, List.cons_append, List.head?_cons,
        Option.mem_def, Option.some_inj] at hy
      rw [← hy]
      have h40 := callbackWrite_progress_ge p0
      show max 0 (min 100 (40 : Int)) ≤ (callbackWrite p0).progress
      omega

/-- `runJob` on a runnable job whose workflow succeeds. -/
theorem runJob_eq_ok (s : JobScenario)
    (hinit : s.initialStatus = "pending" ∨ s.initialStatus = "processing")
    (ws : List JobWrite) (h : processJob s = (ws, none)) :
    runJob s = (mkUpdateData 10 (some "processing") none :: ws, true) := by
  rw [runJob, if_pos hinit, h]

/-- `runJob` on a runnable job whose workflow raises: the error write of
routes/translate.py lines 155-160 is appended. -/
theorem runJob_eq_fail (s : JobScenario)
    (hinit : s.initialStatus = "pending" ∨ s.initialStatus = "processing")
    (ws : List JobWrite) (m : String) (h : processJob s = (ws, some m)) :
    runJob s = (mkUpdateData 10 (some "processing") none ::
      (ws ++ [mkUpdateData 0 (some "error") (some m)]), false) := by
  rw [runJob, if_pos hinit, h]

/-! ## Claim theorems about the orchestrator -/

/-- C4 counterexample: a job that fails while building (after callback
percentage 50 had advanced progress to 55 and the `building` transition
wrote 75) gets the error write `progress=0` of routes/translate.py
line 157: the persisted progress sequence is `10,15,25,40,55,75,0` — the
final error value is 0, not the 75 that preceded the failure, and the
sequence is not non-decreasing through the terminal write. -/
theorem orchestrator_error_resets_progress_counterexample :
    (runJob ⟨"pending", .ok, .ok, [50], .ok, .fail "boom", .ok, .ok⟩).1.map
        JobWrite.progress = [10, 15, 25, 40, 55, 75, 0] ∧
    (runJob ⟨"pending", .ok, .ok, [50], .ok, .fail "boom", .ok, .ok⟩).1.getLast? =
      some (mkUpdateData 0 (some "error") (some "PDF building failed: boom")) ∧
    ¬ List.Chain' (· ≤ ·)
      ((runJob ⟨"pending", .ok, .ok, [50], .ok, .fail "boom", .ok, .ok⟩).1.map
        JobWrite.progress) := by
  refine ⟨by decide, by decide, ?_⟩
  intro hchain
  rw [show (runJob ⟨"pending", .ok, .ok, [50], .ok, .fail "boom", .ok, .ok⟩).1.map
      JobWrite.progress = [10, 15, 25, 40, 55, 75, 0] from by decide] at hchain
  simp [List.chain'_cons] at hchain

/-- C4 amended: on a runnable job, with the callback delivering
non-decreasing percentages in `[0, 100]` (spec-modelled, see
`JobScenario`), the persisted progress sequence of a successful run is
non-decreasing and ends with the `progress=100, status=done` write; a
failed run's write sequence is a non-decreasing prefix followed by a
terminal error write that RESETS progress to 0 (it is not frozen at the
preceding value) carrying the failure message. -/
theorem orchestrator_progress_monotone_error_resets (s : JobScenario)
    (hinit : s.initialStatus = "pending" ∨ s.initialStatus = "processing")
    (hcb : List.Chain' (· ≤ ·) s.callbackPercents)
    (hbound : ∀ p ∈ s.callbackPercents, p ≤ 100) :
    ((runJob s).2 = true →
      List.Chain' (· ≤ ·) ((runJob s).1.map JobWrite.progress) ∧
      (runJob s).1.getLast? = some (mkUpdateData 100 (some "done") none)) ∧
    ((runJob s).2 = false →
      ∃ pre m, (runJob s).1 = pre ++ [mkUpdateData 0 (some "error") (some m)] ∧
        List.Chain' (· ≤ ·) (pre.map JobWrite.progress)) := by
  have hM := orchestrator_chain_master s.callbackPercents hcb hbound
  cases hd : s.download with
  | fail m =>
    have hpj : processJob s = ([mkUpdateData 15 (some "extracting") none],
        some ("Failed to download PDF: " ++ m)) := by
      simp [processJob, hd]
    rw [runJob_eq_fail s hinit _ _ hpj]
    refine ⟨fun hok => absurd hok (by simp), fun _ => ?_⟩
    refine ⟨[mkUpdateData 10 (some "processing") none,
             mkUpdateData 15 (some "extracting") none],
            "Failed to download PDF: " ++ m, by simp, ?_⟩
    have hpre : [mkUpdateData 10 (some "processing") none,
        mkUpdateData 15 (some "extracting") none] <+:
        ([mkUpdateData 10 (some "processing") none,
          mkUpdateData 15 (some "extracting") none,
          mkUpdateData 25 (some "extracting") none,
          mkUpdateData 40 (some "translating") none] ++
         (s.callbackPercents.map callbackWrite ++
          [mkUpdateData 75 (some "building") none,
           mkUpdateData 85 (some "building") none,
           mkUpdateData 100 (some "done") none])) := ⟨[mkUpdateData 25 (some "extracting") none,
          mkUpdateData 40 (some "translating") none] ++
         (s.callbackPercents.map callbackWrite ++
          [mkUpdateData 75 (some "building") none,
           mkUpdateData 85 (some "building") none,
           mkUpdateData 100 (some "done") none]), by simp⟩
    exact hM.prefix (hpre.map JobWrite.progress)
  | ok =>
  cases he : s.extract with
  | fail m =>
    have hpj : processJob s = ([mkUpdateData 15 (some "extracting") none,
        mkUpdateData 25 (some "extracting") none],
        some ("Text extraction failed: " ++ m)) := by
      simp [processJob, hd, he]
    rw [runJob_eq_fail s hinit _ _ hpj]
    refine ⟨fun hok => absurd hok (by simp), fun _ => ?_⟩
    refine ⟨[mkUpdateData 10 (some "processing") none,
             mkUpdateData 15 (some "extracting") none,
             mkUpdateData 25 (some "extracting") none],
            "Text extraction failed: " ++ m, by simp, ?_⟩
    have hpre : [mkUpdateData 10 (some "processing") none,
        mkUpdateData 15 (some "extracting") none,
        mkUpdateData 25 (some "extracting") none] <+:
        ([mkUpdateData 10 (some "processing") none,
          mkUpdateData 15 (some "extracting") none,
          mkUpdateData 25 (some "extracting") none,
          mkUpdateData 40 (some "translating") none] ++
         (s.callbackPercents.map callbackWrite ++
          [mkUpdateData 75 (some "building") none,
           mkUpdateData 85 (some "building") none,
           mkUpdateData 100 (some "done") none])) := ⟨[mkUpdateData 40 (some "translating") none] ++
         (s.callbackPercents.map callbackWrite ++
          [mkUpdateData 75 (some "building") none,
           mkUpdateData 85 (some "building") none,
           mkUpdateData 100 (some "done") none]), by simp⟩
    exact hM.prefix (hpre.map JobWrite.progress)
  | ok =>
  cases ht : s.translate with
  | fail m =>
    have hpj : processJob s = ([mkUpdateData 15 (some "extracting") none,
        mkUpdateData 25 (some "extracting") none,
        mkUpdateData 40 (some "translating") none] ++
        s.callbackPercents.map callbackWrite,
        some ("Translation failed: " ++ m)) := by
      simp [processJob, hd, he, ht]
    rw [runJob_eq_fail s hinit _ _ hpj]
    refine ⟨fun hok => absurd hok (by simp), fun _ => ?_⟩
    refine ⟨[mkUpdateData 10 (some "processing") none,
             mkUpdateData 15 (some "extracting") none,
             mkUpdateData 25 (some "extracting") none,
             mkUpdateData 40 (some "translating") none] ++
            s.callbackPercents.map callbackWrite,
            "Translation failed: " ++ m, by simp, ?_⟩
    have hpre : ([mkUpdateData 10 (some "processing") none,
        mkUpdateData 15 (some "extracting") none,
        mkUpdateData 25 (some "extracting") none,
        mkUpdateData 40 (some "translating") none] ++
        s.callbackPercents.map callbackWrite) <+:
        ([mkUpdateData 10 (some "processing") none,
          mkUpdateData 15 (some "extracting") none,
          mkUpdateData 25 (some "extracting") none,
          mkUpdateData 40 (some "translating") none] ++
         (s.callbackPercents.map callbackWrite ++
          [mkUpdateData 75 (some "building") none,
           mkUpdateData 85 (some "building") none,
           mkUpdateData 100 (some "done") none])) := ⟨[mkUpdateData 75 (some "building") none,
          mkUpdateData 85 (some "building") none,
          mkUpdateData 100 (some "done") none], by simp⟩
    exact hM.prefix (hpre.map JobWrite.progress)
  | ok =>
  cases hb : s.build with
  | fail m =>
    have hpj : processJob s = (([mkUpdateData 15 (some "extracting") none,
        mkUpdateData 25 (some "extracting") none,
        mkUpdateData 40 (some "translating") none] ++
        s.callbackPercents.map callbackWrite) ++
        [mkUpdateData 75 (some "building") none],
        some ("PDF building failed: " ++ m)) := by
      simp [processJob, hd, he, ht, hb]
    rw [runJob_eq_fail s hinit _ _ hpj]
    refine ⟨fun hok => absurd hok (by simp), fun _ => ?_⟩
    refine ⟨([mkUpdateData 10 (some "processing") none,
             mkUpdateData 15 (some "extracting") none,
             mkUpdateData 25 (some "extracting") none,
             mkUpdateData 40 (some "translating") none] ++
            s.callbackPercents.map callbackWrite) ++
            [mkUpdateData 75 (some "building") none],
            "PDF building failed: " ++ m, by simp, ?_⟩
    have hpre : (([mkUpdateData 10 (some "processing") none,
        mkUpdateData 15 (some "extracting") none,
        mkUpdateData 25 (some "extracting") none,
        mkUpdateData 40 (some "translating") none] ++
        s.callbackPercents.map callbackWrite) ++
        [mkUpdateData 75 (some "building") none]) <+:
        ([mkUpdateData 10 (some "processing") none,
          mkUpdateData 15 (some "extracting") none,
          mkUpdateData 25 (some "extracting") none,
          mkUpdateData 40 (some "translating") none] ++
         (s.callbackPercents.map callbackWrite ++
          [mkUpdateData 75 (some "building") none,
           mkUpdateData 85 (some "building") none,
           mkUpdateData 100 (some "done") none])) := ⟨[mkUpdateData 85 (some "building") none,
          mkUpdateData 100 (some "done") none], by simp⟩
    exact hM.prefix (hpre.map JobWrite.progress)
  | ok =>
  cases hu : s.upload with
  | fail m =>
    have hpj : processJob s = (([mkUpdateData 15 (some "extracting") none,
        mkUpdateData 25 (some "extracting") none,
        mkUpdateData 40 (some "translating") none] ++
        s.callbackPercents.map callbackWrite) ++
        [mkUpdateData 75 (some "building") none,
         mkUpdateData 85 (some "building") none],
        some ("Failed to upload result PDF: " ++ m)) := by
      simp [processJob, hd, he, ht, hb, hu]
    rw [runJob_eq_fail s hinit _ _ hpj]
    refine ⟨fun hok => absurd hok (by simp), fun _ => ?_⟩
    refine ⟨([mkUpdateData 10 (some "processing") none,
             mkUpdateData 15 (some "extracting") none,
             mkUpdateData 25 (some "extracting") none,
             mkUpdateData 40 (some "translating") none] ++
            s.callbackPercents.map callbackWrite) ++
            [mkUpdateData 75 (some "building") none,
             mkUpdateData 85 (some "building") none],
            "Failed to upload result PDF: " ++ m, by simp, ?_⟩
    have hpre : (([mkUpdateData 10 (some "processing") none,
        mkUpdateData 15 (some "extracting") none,
        mkUpdateData 25 (some "extracting") none,
        mkUpdateData 40 (some "translating") none] ++
        s.callbackPercents.map callbackWrite) ++
        [mkUpdateData 75 (some "building") none,
         mkUpdateData 85 (some "building") none]) <+:
        ([mkUpdateData 10 (some "processing") none,
          mkUpdateData 15 (some "extracting") none,
          mkUpdateData 25 (some "extracting") none,
          mkUpdateData 40 (some "translating") none] ++
         (s.callbackPercents.map callbackWrite ++
          [mkUpdateData 75 (some "building") none,
           mkUpdateData 85 (some "building") none,
           mkUpdateData 100 (some "done") none])) := ⟨[mkUpdateData 100 (some "done") none], by simp⟩
    exact hM.prefix (hpre.map JobWrite.progress)
  | ok =>
  cases hl : s.link with
  | fail m =>
    have hpj : processJob s = (([mkUpdateData 15 (some "extracting") none,
        mkUpdateData 25 (some "extracting") none,
        mkUpdateData 40 (some "translating") none] ++
        s.callbackPercents.map callbackWrite) ++
        [mkUpdateData 75 (some "building") none,
         mkUpdateData 85 (some "building") none,
         mkUpdateData 100 (some "done") none],
        some m) := by
      simp [processJob, hd, he, ht, hb, hu, hl]
    rw [runJob_eq_fail s hinit _ _ hpj]
    refine ⟨fun hok => absurd hok (by simp), fun _ => ?_⟩
    refine ⟨([mkUpdateData 10 (some "processing") none,
             mkUpdateData 15 (some "extracting") none,
             mkUpdateData 25 (some "extracting") none,
             mkUpdateData 40 (some "translating") none] ++
            s.callbackPercents.map callbackWrite) ++
            [mkUpdateData 75 (some "building") none,
             mkUpdateData 85 (some "building") none,
             mkUpdateData 100 (some "done") none],
            m, by simp, ?_⟩
    have heq : (([mkUpdateData 10 (some "processing") none,
        mkUpdateData 15 (some "extracting") none,
        mkUpdateData 25 (some "extracting") none,
        mkUpdateData 40 (some "translating") none] ++
        s.callbackPercents.map callbackWrite) ++
        [mkUpdateData 75 (some "building") none,
         mkUpdateData 85 (some "building") none,
         mkUpdateData 100 (some "done") none]).map JobWrite.progress =
        ([mkUpdateData 10 (some "processing") none,
          mkUpdateData 15 (some "extracting") none,
          mkUpdateData 25 (some "extracting") none,
          mkUpdateData 40 (some "translating") none] ++
         (s.callbackPercents.map callbackWrite ++
          [mkUpdateData 75 (some "building") none,
           mkUpdateData 85 (some "building") none,
           mkUpdateData 100 (some "done") none])).map JobWrite.progress := by
      simp
    rw [heq]
    exact hM
  | ok =>
    have hpj : processJob s = (([mkUpdateData 15 (some "extracting") none,
        mkUpdateData 25 (some "extracting") none,
        mkUpdateData 40 (some "translating") none] ++
        s.callbackPercents.map callbackWrite) ++
        [mkUpdateData 75 (some "building") none,
         mkUpdateData 85 (some "building") none,
         mkUpdateData 100 (some "done") none],
        none) := by
      simp [processJob, hd, he, ht, hb, hu, hl]
    rw [runJob_eq_ok s hinit _ hpj]
    refine ⟨fun _ => ⟨?_, ?_⟩, fun hfail => absurd hfail (by simp)⟩
    · have heq : (mkUpdateData 10 (some "processing") none ::
          (([mkUpdateData 15 (some "extracting") none,
             mkUpdateData 25 (some "extracting") none,
             mkUpdateData 40 (some "translating") none] ++
            s.callbackPercents.map callbackWrite) ++
           [mkUpdateData 75 (some "building") none,
            mkUpdateData 85 (some "building") none,
            mkUpdateData 100 (some "done") none])).map JobWrite.progress =
          ([mkUpdateData 10 (some "processing") none,
            mkUpdateData 15 (some "extracting") none,
            mkUpdateData 25 (some "extracting") none,
            mkUpdateData 40 (some "translating") none] ++
           (s.callbackPercents.map callbackWrite ++
            [mkUpdateData 75 (some "building") none,
             mkUpdateData 85 (some "building") none,
             mkUpdateData 100 (some "done") none])).map JobWrite.progress := by
        simp
      rw [heq]
      exact hM
    · have heq2 : mkUpdateData 10 (some "processing") none ::
          (([mkUpdateData 15 (some "extracting") none,
             mkUpdateData 25 (some "extracting") none,
             mkUpdateData 40 (some "translating") none] ++
            s.callbackPercents.map callbackWrite) ++
           [mkUpdateData 75 (some "building") none,
            mkUpdateData 85 (some "building") none,
            mkUpdateData 100 (some "done") none]) =
          (([mkUpdateData 10 (some "processing") none,
             mkUpdateData 15 (some "extracting") none,
             mkUpdateData 25 (some "extracting") none,
             mkUpdateData 40 (some "translating") none] ++
            s.callbackPercents.map callbackWrite) ++
           [mkUpdateData 75 (some "building") none,
            mkUpdateData 85 (some "building") none]) ++
          [mkUpdateData 100 (some "done") none] := by
        simp
      rw [heq2, List.getLast?_concat]

/-- C4 amended witness: a successful two-callback run on a pending job. -/
theorem orchestrator_progress_monotone_error_resets_witness :
    (((runJob ⟨"pending", .ok, .ok, [50, 80], .ok, .ok, .ok, .ok⟩).2 = true →
      List.Chain' (· ≤ ·)
        ((runJob ⟨"pending", .ok, .ok, [50, 80], .ok, .ok, .ok, .ok⟩).1.map
          JobWrite.progress) ∧
      (runJob ⟨"pending", .ok, .ok, [50, 80], .ok, .ok, .ok, .ok⟩).1.getLast? =
        some (mkUpdateData 100 (some "done") none)) ∧
    ((runJob ⟨"pending", .ok, .ok, [50, 80], .ok, .ok, .ok, .ok⟩).2 = false →
      ∃ pre m, (runJob ⟨"pending", .ok, .ok, [50, 80], .ok, .ok, .ok, .ok⟩).1 =
          pre ++ [mkUpdateData 0 (some "error") (some m)] ∧
        List.Chain' (· ≤ ·) (pre.map JobWrite.progress))) :=
  orchestrator_progress_monotone_error_resets
    ⟨"pending", .ok, .ok, [50, 80], .ok, .ok, .ok, .ok⟩
    (Or.inl rfl)
    (by simp [List.chain'_cons])
    (by decide)

end LegalAI
